import Mathlib

/-!
Verification development for the mgserver job-orchestration subsystem.

The definitions below are a shallow embedding of the Python sources:
  * `services/face_queue.py`   — the single-flight FaceFusion queue worker,
  * `services/image_service.py`— the workflow driver that filters face
    references and enqueues face-swap work,
  * `webhook.py`               — the signed webhook sender with retries,
  * `services/job_manager.py`  — the in-memory job store,
  * `database.py`              — the SQLite-backed job store,
  * `services/job_service.py`  — `progress_of_status` and the
    webhook-notifying pipeline driver,
  * `pipelines.py`             — the status/event sequence of
    `gpt_only_pipeline`.

External effects (subprocess invocations, HTTP transports, HMAC, the clock,
filesystem existence checks, URL-to-path conversion, JSON serialization) are
passed in as explicit parameters or oracles; everything else follows the
source line by line.
-/

namespace MGServer

/-! ## Face-swap executor (`services/face_queue.py`) and the reference filter
(`services/image_service.py`) -/

/-- A face reference exactly as `ImageService` builds it before enqueueing:
the pair `(original request-order index, converted local path)` appended by
`person_paths.append((i, person_path))`. -/
abbrev FaceRef := Nat × String

/-- One invocation of the underlying single-face swap operation
(`FaceFusionQueue._run_single_face_swap`): the argument passed in source
position, the current target image, the chosen output path, and the
`face_position` argument. In the source the first argument is whatever
element the queue iterates over — for jobs enqueued by `ImageService` this is
the whole `(index, path)` pair, not the path. -/
structure SwapCall where
  source : FaceRef
  target : String
  output : String
  position : Nat
deriving Repr, DecidableEq

/-- Output path selection inside `_process_face_swap`: the last face writes
`final_result.jpg`, earlier faces write `temp_step_{i+1}.jpg`. -/
def outputPathFor (outputDir : String) (i n : Nat) : String :=
  if i = n - 1 then outputDir ++ "/final_result.jpg"
  else outputDir ++ "/temp_step_" ++ toString (i + 1) ++ ".jpg"

/-- The sequential loop of `_process_face_swap`: `for i, source_face in
enumerate(source_faces)` invokes `_run_single_face_swap(source_face,
current_target, output_path, i)`; on success the output path becomes the next
target; on failure the loop aborts with the step message. The oracle `ok`
decides whether an invocation succeeds. Returns the list of invocations made,
the aggregate success flag, and the result string. -/
def processFaceSwapLoop (ok : SwapCall → Bool) (outputDir : String) (n : Nat) :
    List FaceRef → Nat → String → List SwapCall × Bool × String
  | [], _, target => ([], true, target)
  | f :: rest, i, target =>
    let out := outputPathFor outputDir i n
    let c : SwapCall := ⟨f, target, out, i⟩
    if ok c then
      let r := processFaceSwapLoop ok outputDir n rest (i + 1) out
      (c :: r.1, r.2.1, r.2.2)
    else
      ([c], false, "Face swap failed at step " ++ toString (i + 1))

/-- `FaceFusionQueue._process_face_swap`: empty `source_faces` returns the
target unchanged with no invocation; otherwise the sequential loop runs from
enumerate index 0 with the job's target image. -/
def processFaceSwap (ok : SwapCall → Bool) (target : String)
    (sourceFaces : List FaceRef) (outputDir : String) :
    List SwapCall × Bool × String :=
  if sourceFaces.isEmpty then ([], true, target)
  else processFaceSwapLoop ok outputDir sourceFaces.length sourceFaces 0 target

/-- Python `str.strip()` (whitespace from both ends), over the character
list so it reduces definitionally. -/
def pyStrip (s : String) : String :=
  String.mk
    (((s.toList.dropWhile Char.isWhitespace).reverse.dropWhile
        Char.isWhitespace).reverse)

/-- The reference filter shared by `ImageService.process_full_workflow` and
`ImageService.process_face_only`: enumerate the request's `person_ids`,
skip entries that are empty/whitespace (`not person_url or
person_url.strip() == ""`), convert the rest with `convert_url_to_path`
(oracle `conv`), skip converted paths that do not exist (oracle `exConv`),
and keep `(original index, converted path)` pairs. -/
def filterFaceRefs (conv : String → String) (exConv : String → Bool) :
    List String → Nat → List FaceRef
  | [], _ => []
  | p :: rest, i =>
    if pyStrip p = "" then filterFaceRefs conv exConv rest (i + 1)
    else
      let path := conv p
      if exConv path then (i, path) :: filterFaceRefs conv exConv rest (i + 1)
      else filterFaceRefs conv exConv rest (i + 1)

/-! ## Webhook sender (`webhook.py`) -/

/-- HTTP status codes `send_webhook` treats as success. -/
def successCodes : List Nat := [200, 201, 202, 204]

/-- Outcome of one delivery attempt: the transport maps an attempt number to
`some status_code` or `none` for a raised transport error; both a non-2xx
code and an exception count as a failed attempt. -/
def attemptDelivered (transport : Nat → Option Nat) (attempt : Nat) : Bool :=
  match transport attempt with
  | some code => successCodes.contains code
  | none => false

/-- The retry loop of `WebhookSender.send_webhook`. The fuel argument is the
number of loop iterations remaining (`for attempt in range(max_retries)`).
Returns `(attempts made, delivered)`. -/
def sendWebhookAttempts (transport : Nat → Option Nat) : Nat → Nat → Nat × Bool
  | _, 0 => (0, false)
  | attempt, rem + 1 =>
    if attemptDelivered transport attempt then (1, true)
    else
      let r := sendWebhookAttempts transport (attempt + 1) rem
      (r.1 + 1, r.2)

/-- `WebhookSender.send_webhook`: an empty URL short-circuits to failure with
no attempt; otherwise the loop runs `max_retries` times starting at attempt
number 0. -/
def sendWebhook (transport : Nat → Option Nat) (url : String)
    (maxRetries : Nat) : Nat × Bool :=
  if url = "" then (0, false) else sendWebhookAttempts transport 0 maxRetries

/-- `WebhookSender.__init__` sets `self.max_retries = 3`. -/
def webhookSenderMaxRetries : Nat := 3

/-- `process_image_with_webhook` records `"sent" if success else "failed"`
via `update_webhook_status`. -/
def webhookStateAfter (delivered : Bool) : String :=
  if delivered then "sent" else "failed"

/-! ## In-memory job store (`services/job_manager.py`) -/

/-- The members of the `JobStatus` enum. -/
inductive MgrStatus
  | queued
  | gptProcessing
  | faceProcessing
  | completed
  | failed
deriving Repr, DecidableEq

/-- `JobStatus` member values (`status.value`). -/
def MgrStatus.value : MgrStatus → String
  | .queued => "queued"
  | .gptProcessing => "gpt_processing"
  | .faceProcessing => "face_processing"
  | .completed => "completed"
  | .failed => "failed"

/-- The `progress_map` dictionary inside `JobManager.update_status`. The
enum is finite so the `.get(status, 0)` default is unreachable. -/
def progressMap : MgrStatus → Int
  | .queued => 0
  | .gptProcessing => 30
  | .faceProcessing => 60
  | .completed => 100
  | .failed => -1

/-- A job dict as created by `JobManager.create_job`. Timestamps are modelled
as naturals supplied by the caller. -/
structure MgrJob where
  jobType : String
  status : String
  createdAt : Nat
  updatedAt : Nat
  resultPath : Option String
  error : Option String
  logs : List (Nat × String)
  progress : Int
  webhookParams : List (String × String)
deriving Repr, DecidableEq

/-- The in-memory store `JobManager.jobs`. -/
structure Mgr where
  jobs : String → Option MgrJob

/-- The record update performed by `JobManager.update_status` on a present
job: write `status.value`, refresh `updated_at`, set `error` only when the
argument is truthy (`if error:`), and write the mapped progress. The webhook
dispatch `asyncio.create_task(...)` touches no job field and is not part of
the store model. -/
def mgrApplyStatus (t : Nat) (j : MgrJob) (st : MgrStatus)
    (error : Option String) : MgrJob :=
  { j with
    status := st.value
    updatedAt := t
    error := match error with
      | some e => if e = "" then j.error else some e
      | none => j.error
    progress := progressMap st }

/-- `JobManager.update_status`: a silent no-op when `job_id` is absent
(`if job_id in self.jobs`). -/
def mgrUpdateStatus (t : Nat) (m : Mgr) (jobId : String) (st : MgrStatus)
    (error : Option String) : Mgr :=
  match m.jobs jobId with
  | none => m
  | some j =>
    ⟨fun i => if i = jobId then some (mgrApplyStatus t j st error) else m.jobs i⟩

/-- `JobManager.set_result`: writes `result_path` and refreshes `updated_at`
for a present job; silent no-op otherwise. -/
def mgrSetResult (t : Nat) (m : Mgr) (jobId : String) (resultPath : String) :
    Mgr :=
  match m.jobs jobId with
  | none => m
  | some j =>
    ⟨fun i => if i = jobId then
        some { j with resultPath := some resultPath, updatedAt := t }
      else m.jobs i⟩

/-- `JobManager.add_log`: appends a timestamped message to `logs` for a
present job (without touching `updated_at`); silent no-op otherwise. -/
def mgrAddLog (t : Nat) (m : Mgr) (jobId : String) (message : String) : Mgr :=
  match m.jobs jobId with
  | none => m
  | some j =>
    ⟨fun i => if i = jobId then
        some { j with logs := j.logs ++ [(t, message)] }
      else m.jobs i⟩

/-- `JobManager.set_webhook_params`: replaces `webhook_params` for a present
job; silent no-op otherwise. -/
def mgrSetWebhookParams (m : Mgr) (jobId : String)
    (params : List (String × String)) : Mgr :=
  match m.jobs jobId with
  | none => m
  | some j =>
    ⟨fun i => if i = jobId then some { j with webhookParams := params }
      else m.jobs i⟩

/-- `JobManager.update_job_progress`: writes `progress` and refreshes
`updated_at` for a present job; silent no-op otherwise. -/
def mgrUpdateJobProgress (t : Nat) (m : Mgr) (jobId : String) (p : Int) :
    Mgr :=
  match m.jobs jobId with
  | none => m
  | some j =>
    ⟨fun i => if i = jobId then some { j with progress := p, updatedAt := t }
      else m.jobs i⟩

/-- `JobManager.update_job_error`: writes `error` and refreshes `updated_at`
for a present job; silent no-op otherwise. -/
def mgrUpdateJobError (t : Nat) (m : Mgr) (jobId : String) (e : String) :
    Mgr :=
  match m.jobs jobId with
  | none => m
  | some j =>
    ⟨fun i => if i = jobId then some { j with error := some e, updatedAt := t }
      else m.jobs i⟩

/-! ## Database-backed job store (`database.py`, models `models.py`) -/

/-- The `Job` SQLModel row. `threshold` is a Python float that no modelled
operation reads or computes with; it is embedded as a rational. -/
structure DbJob where
  status : String
  mode : String
  createdAt : Nat
  updatedAt : Nat
  inputImageUrl : String
  prompt : String
  mapping : String
  top1Only : Bool
  threshold : Rat
  error : Option String
  personIds : Option String
  processingType : Option String
  processingColor : Option String
  webhookStatus : Option String
deriving Repr, DecidableEq

/-- A `JobEvent` row. -/
structure DbEvent where
  jobId : String
  name : String
  atTime : Nat
deriving Repr, DecidableEq

/-- The SQLite store: the `Job` table keyed by id plus the `JobEvent`
table in insertion order. -/
structure Db where
  jobs : String → Option DbJob
  events : List DbEvent

/-- The row update performed by `set_status` on a present job: write
`status`, refresh `updated_at`, and set `error` only when the argument is
truthy (`if error:`). -/
def dbApplyStatus (t : Nat) (j : DbJob) (status : String)
    (error : Option String) : DbJob :=
  { j with
    status := status
    updatedAt := t
    error := match error with
      | some e => if e = "" then j.error else some e
      | none => j.error }

/-- `database.set_status`: when the job exists, update the row and insert a
`JobEvent` named after the new status; when it does not, log a warning and
leave the store untouched. -/
def dbSetStatus (t : Nat) (db : Db) (jobId status : String)
    (error : Option String) : Db :=
  match db.jobs jobId with
  | none => db
  | some j =>
    { jobs := fun i => if i = jobId then some (dbApplyStatus t j status error)
        else db.jobs i
      events := db.events ++ [⟨jobId, status, t⟩] }

/-- `database.record_event`: always inserts the event, and refreshes the
job's `updated_at` when the job exists. -/
def dbRecordEvent (t : Nat) (db : Db) (jobId name : String) : Db :=
  { jobs := fun i => if i = jobId then
      (db.jobs jobId).map (fun j => { j with updatedAt := t })
    else db.jobs i
    events := db.events ++ [⟨jobId, name, t⟩] }

/-- `database.update_webhook_status`: when the job exists, write
`webhook_status` and refresh `updated_at`; silent no-op otherwise. No event
is inserted. -/
def dbUpdateWebhookStatus (t : Nat) (db : Db) (jobId status : String) : Db :=
  match db.jobs jobId with
  | none => db
  | some j =>
    { jobs := fun i => if i = jobId then
        some { j with webhookStatus := some status, updatedAt := t }
      else db.jobs i
      events := db.events }

/-! ## Progress derivation (`services/job_service.py`, `utils.py`) -/

/-- The canonical stage ordering used by `progress_of_status`. -/
def statusOrder : List String :=
  ["queued", "editing", "edited", "faceswap", "finalizing", "done", "failed"]

/-- `progress_of_status`: `int(100 * order.index(status) / (len(order) - 1))`
with the bare `except:` returning 0 when the status is not in the list.
`int()` truncates toward zero, which on these non-negative values is natural
division. -/
def progress_of_status (status : String) : Nat :=
  match statusOrder.findIdx? (fun s => s = status) with
  | some i => 100 * i / (statusOrder.length - 1)
  | none => 0

/-! ## Face-only workflow (`ImageService.process_face_only`) -/

/-- A job dict placed on the FaceFusion queue by `ImageService`. -/
structure FaceJob where
  jobId : String
  targetImage : String
  sourceFaces : List FaceRef
  outputDir : String
deriving Repr, DecidableEq

/-- `ImageService.jobs_dir / job_id`. -/
def mediaJobsDir (jobId : String) : String :=
  "/home/catch/media/jobs/" ++ jobId

/-- `ImageService.process_face_only` (non-raising path): set the status to
`face_processing`, convert and filter the person references, and either
complete immediately with the original target (no queue submission) when no
valid reference remains, or enqueue a face job. The returned option is the
job handed to `face_queue.add_job`, if any. Clock ticks are threaded so each
mutation gets a fresh timestamp. -/
def processFaceOnly (conv : String → String) (exConv : String → Bool)
    (t : Nat) (m : Mgr) (jobId targetUrl : String)
    (personIds : List String) : Mgr × Option FaceJob :=
  let m1 := mgrUpdateStatus t m jobId .faceProcessing none
  let targetPath := conv targetUrl
  let sourcePaths := filterFaceRefs conv exConv personIds 0
  if sourcePaths.isEmpty then
    let m2 := mgrSetResult (t + 1) m1 jobId targetPath
    let m3 := mgrUpdateStatus (t + 2) m2 jobId .completed none
    let m4 := mgrAddLog (t + 3) m3 jobId "Completed (no valid faces to swap)"
    (m4, none)
  else
    (m1, some ⟨jobId, targetPath, sourcePaths, mediaJobsDir jobId⟩)

/-! ## Webhook payloads and requests (`webhook.py`) -/

/-- A fragment of JSON sufficient for the webhook payloads. -/
inductive JVal
  | str (s : String)
  | arr (xs : List String)
  | obj (fields : List (String × JVal))

/-- A JSON object as an ordered field list, mirroring the Python dict
literals. -/
abbrev Payload := List (String × JVal)

/-- The payload dict of `WebhookSender.send_success_webhook`. -/
def successPayload (jobId timestamp origUrl processedUrl : String)
    (personIds : List String) : Payload :=
  [("event", .str "image-processing.completed"),
   ("jobId", .str jobId),
   ("timestamp", .str timestamp),
   ("data", .obj [("originalImageId", .str origUrl),
                  ("processedImageUrl", .str processedUrl),
                  ("personIds", .arr personIds)])]

/-- The payload dict of `WebhookSender.send_failure_webhook`. -/
def failurePayload (jobId timestamp errorCode errorMessage : String) :
    Payload :=
  [("event", .str "image-processing.failed"),
   ("jobId", .str jobId),
   ("timestamp", .str timestamp),
   ("error", .obj [("code", .str errorCode),
                   ("message", .str errorMessage)])]

/-- `WebhookSender.generate_signature`: `"sha256=" ++` the hex HMAC-SHA256 of
the payload string under the shared secret. The digest itself is an oracle
parameter. -/
def generateSignature (hmacSha256Hex : String → String → String)
    (secret payload : String) : String :=
  "sha256=" ++ hmacSha256Hex secret payload

/-- An outgoing HTTP POST as `send_webhook` builds it. -/
structure HttpRequest where
  url : String
  body : String
  headers : List (String × String)
deriving Repr, DecidableEq

/-- The request `WebhookSender.send_webhook` posts on every attempt:
`payload = json.dumps(data)` (serializer oracle), the body is that exact
string, and the headers carry the event type and the signature computed over
that same string. -/
def webhookRequest (hmacSha256Hex : String → String → String)
    (serialize : Payload → String) (secret url eventType : String)
    (data : Payload) : HttpRequest :=
  let payload := serialize data
  { url := url
    body := payload
    headers := [("Content-Type", "application/json"),
                ("X-Webhook-Event", eventType),
                ("X-Webhook-Signature",
                 generateSignature hmacSha256Hex secret payload)] }

/-- Python `str.rstrip('/')`. -/
def rstripSlash (s : String) : String :=
  String.mk ((s.toList.reverse.dropWhile (fun c => c = '/')).reverse)

/-- `WebhookSender.send_success_webhook`: build the success payload and post
it to the completion endpoint. -/
def sendSuccessWebhookRequest (hmacSha256Hex : String → String → String)
    (serialize : Payload → String)
    (secret webhookUrl jobId timestamp origUrl processedUrl : String)
    (personIds : List String) : HttpRequest :=
  webhookRequest hmacSha256Hex serialize secret
    (rstripSlash webhookUrl ++ "/webhooks/image-processing/completed")
    "image-processing.completed"
    (successPayload jobId timestamp origUrl processedUrl personIds)

/-- `WebhookSender.send_failure_webhook`: build the failure payload and post
it to the failure endpoint. -/
def sendFailureWebhookRequest (hmacSha256Hex : String → String → String)
    (serialize : Payload → String)
    (secret webhookUrl jobId timestamp errorCode errorMessage : String) :
    HttpRequest :=
  webhookRequest hmacSha256Hex serialize secret
    (rstripSlash webhookUrl ++ "/webhooks/image-processing/failed")
    "image-processing.failed"
    (failurePayload jobId timestamp errorCode errorMessage)

/-! ## The database-backed pipeline driver as a store-operation trace
(`services/job_service.py::process_image_with_webhook` +
`pipelines.py::gpt_only_pipeline`) -/

/-- A Job Store mutation issued by the pipeline driver. -/
inductive DbOp
  | setStatus (status : String) (error : Option String)
  | recEvent (name : String)
  | updWebhook (status : String)
deriving Repr, DecidableEq

/-- Where (if anywhere) the pipeline body raises: the download can fail
before `gpt:start` is recorded, the GPT edit can fail after it, and the
final-copy step can fail after `gpt:done`. -/
inductive PipelineOutcome
  | ok
  | downloadFail (e : String)
  | gptFail (e : String)
  | finalizeFail (e : String)
deriving Repr, DecidableEq

/-- The error text a failing outcome raises with. -/
def outcomeError : PipelineOutcome → String
  | .ok => ""
  | .downloadFail e => e
  | .gptFail e => e
  | .finalizeFail e => e

/-- The store operations `gpt_only_pipeline` issues (it is called with
`set_status_func=set_status` and `record_event_func=record_event`): status
`editing` first, the `gpt:start`/`gpt:done` events around the edit, status
`done` on success; on any exception status `failed` with the error, and the
exception is re-raised. -/
def gptOnlyPipelineOps : PipelineOutcome → List DbOp
  | .ok => [.setStatus "editing" none, .recEvent "gpt:start",
            .recEvent "gpt:done", .setStatus "done" none]
  | .downloadFail e => [.setStatus "editing" none,
                        .setStatus "failed" (some e)]
  | .gptFail e => [.setStatus "editing" none, .recEvent "gpt:start",
                   .setStatus "failed" (some e)]
  | .finalizeFail e => [.setStatus "editing" none, .recEvent "gpt:start",
                        .recEvent "gpt:done", .setStatus "failed" (some e)]

/-- The store operations of `process_image_with_webhook`: run the pipeline;
on success, if the result file exists and a webhook URL is configured,
deliver and record the webhook state; on a raised exception, write status
`failed` again with the same error, then (if a URL is configured) deliver
the failure webhook and record the webhook state. -/
def processImageWithWebhookOps (outcome : PipelineOutcome)
    (webhookUrl : Option String) (resultExists delivered : Bool) :
    List DbOp :=
  gptOnlyPipelineOps outcome ++
    match outcome with
    | .ok =>
      if resultExists then
        match webhookUrl with
        | some _ => [.updWebhook (webhookStateAfter delivered)]
        | none => []
      else []
    | o =>
      .setStatus "failed" (some (outcomeError o)) ::
        match webhookUrl with
        | some _ => [.updWebhook (webhookStateAfter delivered)]
        | none => []

/-- Interpret one operation against the store at time `t`. -/
def applyOp (jobId : String) (t : Nat) (db : Db) : DbOp → Db
  | .setStatus s e => dbSetStatus t db jobId s e
  | .recEvent n => dbRecordEvent t db jobId n
  | .updWebhook s => dbUpdateWebhookStatus t db jobId s

/-- Interpret a trace, ticking the clock once per operation. -/
def applyOps (jobId : String) : Nat → Db → List DbOp → Db
  | _, db, [] => db
  | t, db, op :: rest => applyOps jobId (t + 1) (applyOp jobId t db op) rest

/-- The job fields the spec declares immutable after a terminal transition,
webhook delivery state excepted: everything except `updated_at` and
`webhook_status`. -/
def preservesCore (j j' : DbJob) : Prop :=
  j'.status = j.status ∧ j'.mode = j.mode ∧ j'.createdAt = j.createdAt ∧
  j'.inputImageUrl = j.inputImageUrl ∧ j'.prompt = j.prompt ∧
  j'.mapping = j.mapping ∧ j'.top1Only = j.top1Only ∧
  j'.threshold = j.threshold ∧ j'.error = j.error ∧
  j'.personIds = j.personIds ∧ j'.processingType = j.processingType ∧
  j'.processingColor = j.processingColor

/-- Terminal statuses of the database-backed state machine. -/
def isTerminal (s : String) : Bool :=
  s = "done" || s = "failed"

/-- Operations that may legally follow the first terminal status write in a
driver trace: webhook-state writes, and a repetition of the same terminal
status write with the same error. -/
def postTerminalOp (e : String) : DbOp → Prop
  | .updWebhook _ => True
  | .setStatus s err => s = "failed" ∧ err = some e
  | .recEvent _ => False

/-! ## Concrete sample data used by witnesses and counterexamples -/

/-- A freshly created in-memory job (`JobManager.create_job`). -/
def sampleMgrJob : MgrJob :=
  { jobType := "full", status := "queued", createdAt := 0, updatedAt := 0,
    resultPath := none, error := none, logs := [], progress := 0,
    webhookParams := [] }

/-- An in-memory store holding exactly the job `"job-1"`. -/
def sampleMgr : Mgr :=
  ⟨fun i => if i = "job-1" then some sampleMgrJob else none⟩

/-- The empty in-memory store. -/
def emptyMgr : Mgr := ⟨fun _ => none⟩

/-- A freshly created database job row. -/
def sampleDbJob : DbJob :=
  { status := "queued", mode := "gpt_only", createdAt := 0, updatedAt := 0,
    inputImageUrl := "https://media.example/input.png",
    prompt := "Create a group photo", mapping := "similarity",
    top1Only := false, threshold := 7/20, error := none,
    personIds := none, processingType := none, processingColor := none,
    webhookStatus := some "pending" }

/-- A database store holding exactly the job `"job-1"` and no events. -/
def sampleDb : Db :=
  ⟨fun i => if i = "job-1" then some sampleDbJob else none, []⟩

/-- The empty database store. -/
def emptyDb : Db := ⟨fun _ => none, []⟩

/-! ## Helper lemmas -/

theorem mgrUpdateStatus_jobs_self {m : Mgr} {jobId : String} {j : MgrJob}
    (t : Nat) (st : MgrStatus) (e : Option String)
    (h : m.jobs jobId = some j) :
    (mgrUpdateStatus t m jobId st e).jobs jobId =
      some (mgrApplyStatus t j st e) := by
  simp [mgrUpdateStatus, h]

theorem mgrSetResult_jobs_self {m : Mgr} {jobId : String} {j : MgrJob}
    (t : Nat) (p : String) (h : m.jobs jobId = some j) :
    (mgrSetResult t m jobId p).jobs jobId =
      some { j with resultPath := some p, updatedAt := t } := by
  simp [mgrSetResult, h]

theorem mgrAddLog_jobs_self {m : Mgr} {jobId : String} {j : MgrJob}
    (t : Nat) (msg : String) (h : m.jobs jobId = some j) :
    (mgrAddLog t m jobId msg).jobs jobId =
      some { j with logs := j.logs ++ [(t, msg)] } := by
  simp [mgrAddLog, h]

theorem dbSetStatus_jobs_self {db : Db} {jobId : String} {j : DbJob}
    (t : Nat) (s : String) (e : Option String)
    (h : db.jobs jobId = some j) :
    (dbSetStatus t db jobId s e).jobs jobId = some (dbApplyStatus t j s e) := by
  simp [dbSetStatus, h]

theorem dbRecordEvent_jobs_self {db : Db} {jobId : String} {j : DbJob}
    (t : Nat) (n : String) (h : db.jobs jobId = some j) :
    (dbRecordEvent t db jobId n).jobs jobId =
      some { j with updatedAt := t } := by
  simp [dbRecordEvent, h]

theorem dbUpdateWebhookStatus_jobs_self {db : Db} {jobId : String}
    {j : DbJob} (t : Nat) (s : String) (h : db.jobs jobId = some j) :
    (dbUpdateWebhookStatus t db jobId s).jobs jobId =
      some { j with webhookStatus := some s, updatedAt := t } := by
  simp [dbUpdateWebhookStatus, h]

theorem preservesCore_refl (j : DbJob) : preservesCore j j := by
  simp [preservesCore]

theorem preservesCore_trans {a b c : DbJob}
    (h1 : preservesCore a b) (h2 : preservesCore b c) : preservesCore a c := by
  obtain ⟨p1, p2, p3, p4, p5, p6, p7, p8, p9, p10, p11, p12⟩ := h1
  obtain ⟨q1, q2, q3, q4, q5, q6, q7, q8, q9, q10, q11, q12⟩ := h2
  exact ⟨q1.trans p1, q2.trans p2, q3.trans p3, q4.trans p4, q5.trans p5,
         q6.trans p6, q7.trans p7, q8.trans p8, q9.trans p9, q10.trans p10,
         q11.trans p11, q12.trans p12⟩

theorem preservesCore_updWebhook (j : DbJob) (t : Nat) (s : String) :
    preservesCore j { j with webhookStatus := some s, updatedAt := t } := by
  simp [preservesCore]

theorem preservesCore_recEvent (j : DbJob) (t : Nat) :
    preservesCore j { j with updatedAt := t } := by
  simp [preservesCore]

theorem preservesCore_applyStatus_same (t : Nat) (j : DbJob) (e : String)
    (hs : j.status = "failed") (he : e = "" ∨ j.error = some e) :
    preservesCore j (dbApplyStatus t j "failed" (some e)) := by
  rcases he with he | he <;> simp [preservesCore, dbApplyStatus, hs, he]

/-- Once the job's status is terminal (and, when the trace repeats a
`failed` write, the error already matches), every prefix of the remaining
operations leaves all core job fields unchanged. -/
theorem framePostTerminal (jobId e : String) :
    ∀ (post : List DbOp) (t : Nat) (db : Db) (j1 : DbJob),
      db.jobs jobId = some j1 →
      (e = "" ∨ j1.error = some e) →
      ((∃ op ∈ post, ∃ s err, op = DbOp.setStatus s err) →
        j1.status = "failed") →
      (∀ op ∈ post, postTerminalOp e op) →
      ∀ n, ∃ j2,
        (applyOps jobId t db (post.take n)).jobs jobId = some j2 ∧
        preservesCore j1 j2 := by
  intro post
  induction post with
  | nil =>
    intro t db j1 h _ _ _ n
    exact ⟨j1, by simpa [applyOps] using h, preservesCore_refl j1⟩
  | cons op rest ih =>
    intro t db j1 h herr hfailed hops n
    match n with
    | 0 => exact ⟨j1, by simpa [applyOps] using h, preservesCore_refl j1⟩
    | Nat.succ n =>
      have hop : postTerminalOp e op := hops op (List.mem_cons_self op rest)
      have hrest : ∀ o ∈ rest, postTerminalOp e o := fun o ho =>
        hops o (List.mem_cons_of_mem op ho)
      match op, hop with
      | .updWebhook s, _ =>
        have h' : (applyOp jobId t db (.updWebhook s)).jobs jobId =
            some { j1 with webhookStatus := some s, updatedAt := t } :=
          dbUpdateWebhookStatus_jobs_self t s h
        have herr' : e = "" ∨
            ({ j1 with webhookStatus := some s, updatedAt := t } : DbJob).error
              = some e := herr
        have hfailed' : (∃ o ∈ rest, ∃ s' err, o = DbOp.setStatus s' err) →
            ({ j1 with webhookStatus := some s, updatedAt := t } : DbJob).status
              = "failed" := by
          intro ⟨o, ho, hshape⟩
          exact hfailed ⟨o, List.mem_cons_of_mem _ ho, hshape⟩
        obtain ⟨j3, hj3, hpc⟩ := ih (t + 1) _ _ h' herr' hfailed' hrest n
        exact ⟨j3, by simpa [applyOps, List.take] using hj3,
               preservesCore_trans (preservesCore_updWebhook j1 t s) hpc⟩
      | .setStatus s err, hsh =>
        obtain ⟨hs, herrEq⟩ := hsh
        subst hs; subst herrEq
        have hstat : j1.status = "failed" :=
          hfailed ⟨_, List.mem_cons_self _ rest, _, _, rfl⟩
        have h' : (applyOp jobId t db (.setStatus "failed" (some e))).jobs jobId
            = some (dbApplyStatus t j1 "failed" (some e)) :=
          dbSetStatus_jobs_self t _ _ h
        have herr' : e = "" ∨
            (dbApplyStatus t j1 "failed" (some e)).error = some e := by
          by_cases he : e = ""
          · exact Or.inl he
          · exact Or.inr (by simp [dbApplyStatus, he])
        have hfailed' : (∃ o ∈ rest, ∃ s' err', o = DbOp.setStatus s' err') →
            (dbApplyStatus t j1 "failed" (some e)).status = "failed" := by
          intro _; simp [dbApplyStatus]
        obtain ⟨j3, hj3, hpc⟩ := ih (t + 1) _ _ h' herr' hfailed' hrest n
        exact ⟨j3, by simpa [applyOps, List.take] using hj3,
               preservesCore_trans
                 (preservesCore_applyStatus_same t j1 e hstat herr) hpc⟩
      | .recEvent nm, hsh => exact absurd hsh (by simp [postTerminalOp])

theorem sendWebhookAttempts_alwaysFail
    (transport : Nat → Option Nat)
    (hfail : ∀ a, attemptDelivered transport a = false) :
    ∀ rem attempt, sendWebhookAttempts transport attempt rem = (rem, false) := by
  intro rem
  induction rem with
  | zero => intro attempt; rfl
  | succ n ih =>
    intro attempt
    simp [sendWebhookAttempts, hfail attempt, ih (attempt + 1)]

theorem sendWebhookAttempts_le (transport : Nat → Option Nat) :
    ∀ rem attempt, (sendWebhookAttempts transport attempt rem).1 ≤ rem := by
  intro rem
  induction rem with
  | zero => intro attempt; simp [sendWebhookAttempts]
  | succ n ih =>
    intro attempt
    by_cases hdel : attemptDelivered transport attempt = true
    · simp [sendWebhookAttempts, hdel]
    · simp only [sendWebhookAttempts, if_neg hdel]
      exact Nat.succ_le_succ (ih (attempt + 1))

theorem applyOps_append (jobId : String) :
    ∀ (l1 l2 : List DbOp) (t : Nat) (db : Db),
      applyOps jobId t db (l1 ++ l2) =
        applyOps jobId (t + l1.length) (applyOps jobId t db l1) l2 := by
  intro l1
  induction l1 with
  | nil => intro l2 t db; simp [applyOps]
  | cons op rest ih =>
    intro l2 t db
    have harith : t + (rest.length + 1) = t + 1 + rest.length := by omega
    simp [applyOps, ih, harith]

theorem applyOp_jobs_some {db : Db} {jobId : String} {j : DbJob} (t : Nat)
    (op : DbOp) (h : db.jobs jobId = some j) :
    ∃ j', (applyOp jobId t db op).jobs jobId = some j' := by
  cases op with
  | setStatus s e => exact ⟨_, dbSetStatus_jobs_self t s e h⟩
  | recEvent n => exact ⟨_, dbRecordEvent_jobs_self t n h⟩
  | updWebhook s => exact ⟨_, dbUpdateWebhookStatus_jobs_self t s h⟩

theorem applyOps_jobs_some (jobId : String) :
    ∀ (ops : List DbOp) (t : Nat) (db : Db) (j : DbJob),
      db.jobs jobId = some j →
      ∃ j', (applyOps jobId t db ops).jobs jobId = some j' := by
  intro ops
  induction ops with
  | nil => intro t db j h; exact ⟨j, by simpa [applyOps] using h⟩
  | cons op rest ih =>
    intro t db j h
    obtain ⟨j', hj'⟩ := applyOp_jobs_some t op h
    obtain ⟨j'', hj''⟩ := ih (t + 1) _ _ hj'
    exact ⟨j'', by simpa [applyOps] using hj''⟩

/-- After a trace ending in a `set_status s` write on a present job, the
job is present with status `s`, and carries the written error when it is
non-empty. -/
theorem applyOps_terminalWrite (jobId s : String) (eo : Option String)
    (front : List DbOp) (t0 : Nat) (db0 : Db) (j0 : DbJob)
    (h : db0.jobs jobId = some j0) :
    ∃ j1,
      (applyOps jobId t0 db0 (front ++ [DbOp.setStatus s eo])).jobs jobId =
        some j1 ∧
      j1.status = s ∧
      (∀ e, eo = some e → e ≠ "" → j1.error = some e) := by
  obtain ⟨x, hx⟩ := applyOps_jobs_some jobId front t0 db0 j0 h
  rw [applyOps_append]
  refine ⟨dbApplyStatus (t0 + front.length) x s eo, ?_, by simp [dbApplyStatus],
    ?_⟩
  · simpa [applyOps, applyOp] using
      dbSetStatus_jobs_self (t0 + front.length) s eo hx
  · intro e he hne
    subst he
    simp [dbApplyStatus, hne]

/-! ## Claim theorems -/

/-- C4: the claim asserts progress equals exactly 100 once status is done
and stays within 0..100 as a non-decreasing function of the stage order.
`progress_of_status` appends `failed` to the positional ordering, so
`"done"` (index 5 of 7) computes to `int(100*5/6) = 83`, not 100, while
`"failed"` computes to 100. -/
theorem c4_done_progress_is_83 :
    progress_of_status "done" = 83 ∧ progress_of_status "failed" = 100 ∧
    progress_of_status "done" ≠ 100 ∧ progress_of_status "queued" = 0 := by
  exact ⟨rfl, rfl, by decide, rfl⟩

/-- C10: `JobManager.update_status` on a present job writes the progress
from its fixed map — queued 0, gpt_processing 30, face_processing 60,
completed 100 — and writes -1, a value outside 0..100, for failed. -/
theorem c10_progress_map (t : Nat) (m : Mgr) (jobId : String) (j : MgrJob)
    (e : Option String) (h : m.jobs jobId = some j) :
    (∀ st : MgrStatus,
      ((mgrUpdateStatus t m jobId st e).jobs jobId).map MgrJob.progress =
        some (progressMap st)) ∧
    ((mgrUpdateStatus t m jobId .failed e).jobs jobId).map MgrJob.progress =
      some (-1) ∧
    ¬ (0 ≤ (-1 : Int)) ∧
    progressMap .queued = 0 ∧ progressMap .gptProcessing = 30 ∧
    progressMap .faceProcessing = 60 ∧ progressMap .completed = 100 := by
  refine ⟨fun st => ?_, ?_, by decide, rfl, rfl, rfl, rfl⟩
  · rw [mgrUpdateStatus_jobs_self t st e h]; rfl
  · rw [mgrUpdateStatus_jobs_self t .failed e h]; rfl

/-- Witness for C10 at the sample store. -/
theorem c10_progress_map_witness :
    (∀ st : MgrStatus,
      ((mgrUpdateStatus 5 sampleMgr "job-1" st none).jobs "job-1").map
        MgrJob.progress = some (progressMap st)) ∧
    ((mgrUpdateStatus 5 sampleMgr "job-1" .failed none).jobs "job-1").map
      MgrJob.progress = some (-1) ∧
    ¬ (0 ≤ (-1 : Int)) ∧
    progressMap .queued = 0 ∧ progressMap .gptProcessing = 30 ∧
    progressMap .faceProcessing = 60 ∧ progressMap .completed = 100 :=
  c10_progress_map 5 sampleMgr "job-1" sampleMgrJob none rfl

/-- C9: every mutation invoked with a job identifier absent from its store —
the six manager operations and the two database operations — raises nothing
and returns the store unchanged. -/
theorem c9_absent_noop (t : Nat) (m : Mgr) (db : Db) (jobId : String)
    (st : MgrStatus) (e : Option String) (p msg estr s : String)
    (params : List (String × String)) (prog : Int)
    (hm : m.jobs jobId = none) (hdb : db.jobs jobId = none) :
    mgrUpdateStatus t m jobId st e = m ∧
    mgrSetResult t m jobId p = m ∧
    mgrAddLog t m jobId msg = m ∧
    mgrSetWebhookParams m jobId params = m ∧
    mgrUpdateJobProgress t m jobId prog = m ∧
    mgrUpdateJobError t m jobId estr = m ∧
    dbSetStatus t db jobId s e = db ∧
    dbUpdateWebhookStatus t db jobId s = db := by
  refine ⟨?_, ?_, ?_, ?_, ?_, ?_, ?_, ?_⟩ <;>
    simp [mgrUpdateStatus, mgrSetResult, mgrAddLog, mgrSetWebhookParams,
          mgrUpdateJobProgress, mgrUpdateJobError, dbSetStatus,
          dbUpdateWebhookStatus, hm, hdb]

/-- Witness for C9 on empty stores and the identifier `"missing"`. -/
theorem c9_absent_noop_witness :
    emptyMgr.jobs "missing" = none ∧ emptyDb.jobs "missing" = none ∧
    (mgrUpdateStatus 1 emptyMgr "missing" .completed none = emptyMgr ∧
     mgrSetResult 1 emptyMgr "missing" "/r.png" = emptyMgr ∧
     mgrAddLog 1 emptyMgr "missing" "hello" = emptyMgr ∧
     mgrSetWebhookParams emptyMgr "missing" [] = emptyMgr ∧
     mgrUpdateJobProgress 1 emptyMgr "missing" 50 = emptyMgr ∧
     mgrUpdateJobError 1 emptyMgr "missing" "oops" = emptyMgr ∧
     dbSetStatus 1 emptyDb "missing" "done" none = emptyDb ∧
     dbUpdateWebhookStatus 1 emptyDb "missing" "sent" = emptyDb) :=
  ⟨rfl, rfl,
   c9_absent_noop 1 emptyMgr emptyDb "missing" .completed none "/r.png"
     "hello" "oops" "done" [] 50 rfl rfl⟩

/-- C2 counterexample: the claim predicts exactly `max_retries + 1` attempts
against an always-500 transport; `send_webhook` iterates
`for attempt in range(self.max_retries)`, so with the configured
`max_retries = 3` it makes exactly 3 attempts, not 4. -/
theorem c2_attempts_counterexample :
    sendWebhook (fun _ => some 500) "https://cb.example/hook"
      webhookSenderMaxRetries = (3, false) ∧
    webhookSenderMaxRetries + 1 = 4 ∧ (3 : Nat) ≠ 4 := by
  exact ⟨rfl, rfl, by decide⟩

/-- C2 amended: delivery is attempted at most `max_retries` times per
terminal transition; a transport whose every attempt fails (e.g. always
HTTP 500) yields exactly `max_retries` attempts, the sender reports failure,
and the recorded webhook delivery state is `"failed"`, with no further
automatic retry. -/
theorem c2_retry_ceiling (transport : Nat → Option Nat) (url : String)
    (maxRetries : Nat) (hurl : url ≠ "")
    (hfail : ∀ a, attemptDelivered transport a = false) :
    sendWebhook transport url maxRetries = (maxRetries, false) ∧
    (∀ (tr : Nat → Option Nat) (u : String) (mr : Nat),
      (sendWebhook tr u mr).1 ≤ mr) ∧
    webhookStateAfter (sendWebhook transport url maxRetries).2 = "failed" ∧
    (∀ (t : Nat) (db : Db) (jobId : String) (j : DbJob),
      db.jobs jobId = some j →
      ((dbUpdateWebhookStatus t db jobId
          (webhookStateAfter (sendWebhook transport url maxRetries).2)).jobs
            jobId).map DbJob.webhookStatus = some (some "failed")) := by
  have h1 : sendWebhook transport url maxRetries = (maxRetries, false) := by
    simp [sendWebhook, hurl, sendWebhookAttempts_alwaysFail transport hfail]
  refine ⟨h1, ?_, ?_, ?_⟩
  · intro tr u mr
    by_cases hu : u = ""
    · simp [sendWebhook, hu]
    · simp only [sendWebhook, if_neg hu]
      exact sendWebhookAttempts_le tr mr 0
  · rw [h1]; rfl
  · intro t db jobId j hj
    rw [h1, dbUpdateWebhookStatus_jobs_self t _ hj]
    rfl

/-- Witness for C2 with the always-500 transport and `max_retries = 3`. -/
theorem c2_retry_ceiling_witness :
    ("https://cb.example/hook" ≠ "") ∧
    (∀ a, attemptDelivered (fun _ => some 500) a = false) ∧
    (sendWebhook (fun _ => some 500) "https://cb.example/hook" 3 =
        (3, false) ∧
      (∀ (tr : Nat → Option Nat) (u : String) (mr : Nat),
        (sendWebhook tr u mr).1 ≤ mr) ∧
      webhookStateAfter
        (sendWebhook (fun _ => some 500) "https://cb.example/hook" 3).2 =
          "failed" ∧
      (∀ (t : Nat) (db : Db) (jobId : String) (j : DbJob),
        db.jobs jobId = some j →
        ((dbUpdateWebhookStatus t db jobId
            (webhookStateAfter
              (sendWebhook (fun _ => some 500)
                "https://cb.example/hook" 3).2)).jobs jobId).map
            DbJob.webhookStatus = some (some "failed"))) :=
  ⟨by decide, fun _ => rfl,
   c2_retry_ceiling (fun _ => some 500) "https://cb.example/hook" 3
     (by decide) (fun _ => rfl)⟩

/-- C6 counterexample: the failure payload of
`WebhookSender.send_failure_webhook` has keys
`{event, jobId, timestamp, error}` — it carries no `data` field, so not
every notification payload has the shape `{event, jobId, timestamp,
data : ...}`. -/
theorem c6_failure_payload_has_no_data :
    (failurePayload "job-1" "2025-01-01T00:00:00+00:00" "PROCESSING_ERROR"
        "boom").map Prod.fst = ["event", "jobId", "timestamp", "error"] ∧
    "data" ∉ (failurePayload "job-1" "2025-01-01T00:00:00+00:00"
        "PROCESSING_ERROR" "boom").map Prod.fst := by
  exact ⟨rfl, by decide⟩

/-- C6 amended: success payloads have shape `{event, jobId, timestamp,
data:{...}}` with event `"image-processing.completed"`; failure payloads
have shape `{event, jobId, timestamp, error:{...}}` with event
`"image-processing.failed"`; and every request posts the exact serialized
payload string as its body, carrying the event-type header and the
`sha256=`-prefixed HMAC signature computed over that same string. -/
theorem c6_payload_shape_and_signature
    (hmacSha256Hex : String → String → String)
    (serialize : Payload → String)
    (secret webhookUrl jobId timestamp origUrl processedUrl errorCode
      errorMessage : String) (personIds : List String) :
    (successPayload jobId timestamp origUrl processedUrl personIds).map
        Prod.fst = ["event", "jobId", "timestamp", "data"] ∧
    (failurePayload jobId timestamp errorCode errorMessage).map Prod.fst =
        ["event", "jobId", "timestamp", "error"] ∧
    (successPayload jobId timestamp origUrl processedUrl personIds).head? =
        some ("event", .str "image-processing.completed") ∧
    (failurePayload jobId timestamp errorCode errorMessage).head? =
        some ("event", .str "image-processing.failed") ∧
    (sendSuccessWebhookRequest hmacSha256Hex serialize secret webhookUrl
        jobId timestamp origUrl processedUrl personIds).body =
      serialize (successPayload jobId timestamp origUrl processedUrl
        personIds) ∧
    (sendSuccessWebhookRequest hmacSha256Hex serialize secret webhookUrl
        jobId timestamp origUrl processedUrl personIds).headers =
      [("Content-Type", "application/json"),
       ("X-Webhook-Event", "image-processing.completed"),
       ("X-Webhook-Signature",
        "sha256=" ++ hmacSha256Hex secret
          (serialize (successPayload jobId timestamp origUrl processedUrl
            personIds)))] ∧
    (sendFailureWebhookRequest hmacSha256Hex serialize secret webhookUrl
        jobId timestamp errorCode errorMessage).body =
      serialize (failurePayload jobId timestamp errorCode errorMessage) ∧
    (sendFailureWebhookRequest hmacSha256Hex serialize secret webhookUrl
        jobId timestamp errorCode errorMessage).headers =
      [("Content-Type", "application/json"),
       ("X-Webhook-Event", "image-processing.failed"),
       ("X-Webhook-Signature",
        "sha256=" ++ hmacSha256Hex secret
          (serialize (failurePayload jobId timestamp errorCode
            errorMessage)))] :=
  ⟨rfl, rfl, rfl, rfl, rfl, rfl, rfl, rfl⟩

/-- C1: at the failing input `person_ids = ["", "face1.png"]` (first
reference empty, all files present), the filter keeps the single pair
`(1, path)` carrying original index 1, but `_process_face_swap` passes the
compacted enumerate index 0 as `face_position` — and passes the whole
`(index, path)` pair as the source argument — so the position handed to the
underlying swap is not the original request-order index. -/
theorem c1_position_is_compacted_index :
    filterFaceRefs (fun s => "/media/persons/" ++ s) (fun _ => true)
        ["", "face1.png"] 0 = [(1, "/media/persons/face1.png")] ∧
    (processFaceSwap (fun _ => true) "/jobs/j1/gpt_result.jpg"
        [(1, "/media/persons/face1.png")] "/jobs/j1").1 =
      [⟨(1, "/media/persons/face1.png"), "/jobs/j1/gpt_result.jpg",
        "/jobs/j1/final_result.jpg", 0⟩] ∧
    (processFaceSwap (fun _ => true) "/jobs/j1/gpt_result.jpg"
        [(1, "/media/persons/face1.png")] "/jobs/j1").1.map
        SwapCall.position = [0] ∧
    ([(1, "/media/persons/face1.png")] : List FaceRef).map Prod.fst = [1] ∧
    ([0] : List Nat) ≠ [1] := by
  exact ⟨by decide, rfl, rfl, rfl, by decide⟩

/-- C7: `update_webhook_status` — the Webhook Notifier's only Job Store
write — touches only the target job's `webhook_status` and `updated_at`:
the event table is untouched, every other job is untouched, the target
job's remaining fields (status included) are preserved, and a missing id
changes nothing. -/
theorem c7_notifier_frame (t : Nat) (db : Db) (jobId s : String) :
    (dbUpdateWebhookStatus t db jobId s).events = db.events ∧
    (∀ i, i ≠ jobId →
      (dbUpdateWebhookStatus t db jobId s).jobs i = db.jobs i) ∧
    (∀ j, db.jobs jobId = some j →
      (dbUpdateWebhookStatus t db jobId s).jobs jobId =
        some { j with webhookStatus := some s, updatedAt := t }) ∧
    (∀ j, db.jobs jobId = some j →
      ∀ j', (dbUpdateWebhookStatus t db jobId s).jobs jobId = some j' →
        preservesCore j j') ∧
    (db.jobs jobId = none → dbUpdateWebhookStatus t db jobId s = db) := by
  refine ⟨?_, ?_, ?_, ?_, ?_⟩
  · cases h : db.jobs jobId <;> simp [dbUpdateWebhookStatus, h]
  · intro i hi
    cases h : db.jobs jobId <;> simp [dbUpdateWebhookStatus, h, hi]
  · intro j hj
    exact dbUpdateWebhookStatus_jobs_self t s hj
  · intro j hj j' hj'
    rw [dbUpdateWebhookStatus_jobs_self t s hj] at hj'
    cases hj'
    exact preservesCore_updWebhook j t s
  · intro h
    simp [dbUpdateWebhookStatus, h]

/-- C5: a swap-only job whose face-reference list is empty or filters away
entirely completes immediately: nothing is handed to the face queue, the
result is the converted original input artifact, the status is the
manager's terminal success value `"completed"` with progress 100 — and the
queue worker invoked on an empty face list performs zero swap invocations
and returns its target unchanged. -/
theorem c5_no_faces_passthrough (conv : String → String)
    (exConv : String → Bool) (t : Nat) (m : Mgr)
    (jobId targetUrl : String) (personIds : List String) (j : MgrJob)
    (h : m.jobs jobId = some j)
    (hempty : filterFaceRefs conv exConv personIds 0 = []) :
    (processFaceOnly conv exConv t m jobId targetUrl personIds).2 = none ∧
    ((processFaceOnly conv exConv t m jobId targetUrl personIds).1.jobs
        jobId).map MgrJob.status = some "completed" ∧
    ((processFaceOnly conv exConv t m jobId targetUrl personIds).1.jobs
        jobId).map MgrJob.resultPath = some (some (conv targetUrl)) ∧
    ((processFaceOnly conv exConv t m jobId targetUrl personIds).1.jobs
        jobId).map MgrJob.progress = some 100 ∧
    (∀ (ok : SwapCall → Bool) (tgt dir : String),
      processFaceSwap ok tgt [] dir = ([], true, tgt)) := by
  have h1 := mgrUpdateStatus_jobs_self t MgrStatus.faceProcessing none h
  have h2 := mgrSetResult_jobs_self (t + 1) (conv targetUrl) h1
  have h3 := mgrUpdateStatus_jobs_self (t + 2) MgrStatus.completed none h2
  have h4 := mgrAddLog_jobs_self (t + 3) "Completed (no valid faces to swap)"
    h3
  refine ⟨?_, ?_, ?_, ?_, fun ok tgt dir => rfl⟩ <;>
    simp [processFaceOnly, hempty, h4, mgrApplyStatus, MgrStatus.value,
      progressMap]

/-- Witness for C5: one person reference whose converted path does not
exist, against the sample store. -/
theorem c5_no_faces_passthrough_witness :
    sampleMgr.jobs "job-1" = some sampleMgrJob ∧
    filterFaceRefs (fun s => "/media/" ++ s) (fun _ => false) ["p1.png"] 0 =
      [] ∧
    ((processFaceOnly (fun s => "/media/" ++ s) (fun _ => false) 10
        sampleMgr "job-1" "https://media.example/target.png"
        ["p1.png"]).2 = none ∧
      ((processFaceOnly (fun s => "/media/" ++ s) (fun _ => false) 10
          sampleMgr "job-1" "https://media.example/target.png"
          ["p1.png"]).1.jobs "job-1").map MgrJob.status =
        some "completed" ∧
      ((processFaceOnly (fun s => "/media/" ++ s) (fun _ => false) 10
          sampleMgr "job-1" "https://media.example/target.png"
          ["p1.png"]).1.jobs "job-1").map MgrJob.resultPath =
        some (some ((fun s => "/media/" ++ s)
          "https://media.example/target.png")) ∧
      ((processFaceOnly (fun s => "/media/" ++ s) (fun _ => false) 10
          sampleMgr "job-1" "https://media.example/target.png"
          ["p1.png"]).1.jobs "job-1").map MgrJob.progress = some 100 ∧
      (∀ (ok : SwapCall → Bool) (tgt dir : String),
        processFaceSwap ok tgt [] dir = ([], true, tgt))) :=
  ⟨rfl, by decide,
   c5_no_faces_passthrough (fun s => "/media/" ++ s) (fun _ => false) 10
     sampleMgr "job-1" "https://media.example/target.png" ["p1.png"]
     sampleMgrJob rfl (by decide)⟩

/-- Witness for C7 at the sample store. -/
theorem c7_notifier_frame_witness :
    (dbUpdateWebhookStatus 9 sampleDb "job-1" "sent").events =
        sampleDb.events ∧
    (∀ i, i ≠ "job-1" →
      (dbUpdateWebhookStatus 9 sampleDb "job-1" "sent").jobs i =
        sampleDb.jobs i) ∧
    (∀ j, sampleDb.jobs "job-1" = some j →
      (dbUpdateWebhookStatus 9 sampleDb "job-1" "sent").jobs "job-1" =
        some { j with webhookStatus := some "sent", updatedAt := 9 }) ∧
    (∀ j, sampleDb.jobs "job-1" = some j →
      ∀ j', (dbUpdateWebhookStatus 9 sampleDb "job-1" "sent").jobs "job-1" =
          some j' → preservesCore j j') ∧
    (sampleDb.jobs "job-1" = none →
      dbUpdateWebhookStatus 9 sampleDb "job-1" "sent" = sampleDb) :=
  c7_notifier_frame 9 sampleDb "job-1" "sent"

/-- C8 counterexample: in the failure path of the database-backed driver the
job reaches terminal status `failed` at the third operation with
`updated_at = 2` and 3 recorded events; the trace then re-issues the failed
status write and the webhook-state write, leaving `updated_at = 4` and a
4th event — fields other than the webhook delivery state change after the
terminal transition, so the claim as stated is false. -/
theorem c8_fields_change_after_terminal :
    ((applyOps "job-1" 0 sampleDb
        ((processImageWithWebhookOps (.gptFail "boom")
          (some "https://cb.example") true false).take 3)).jobs
        "job-1").map DbJob.status = some "failed" ∧
    ((applyOps "job-1" 0 sampleDb
        ((processImageWithWebhookOps (.gptFail "boom")
          (some "https://cb.example") true false).take 3)).jobs
        "job-1").map DbJob.updatedAt = some 2 ∧
    (applyOps "job-1" 0 sampleDb
        ((processImageWithWebhookOps (.gptFail "boom")
          (some "https://cb.example") true false).take 3)).events.length =
      3 ∧
    ((applyOps "job-1" 0 sampleDb
        (processImageWithWebhookOps (.gptFail "boom")
          (some "https://cb.example") true false)).jobs "job-1").map
        DbJob.updatedAt = some 4 ∧
    (applyOps "job-1" 0 sampleDb
        (processImageWithWebhookOps (.gptFail "boom")
          (some "https://cb.example") true false)).events.length = 4 ∧
    ((applyOps "job-1" 0 sampleDb
        (processImageWithWebhookOps (.gptFail "boom")
          (some "https://cb.example") true false)).jobs "job-1").map
        DbJob.status = some "failed" ∧
    (2 : Nat) ≠ 4 := by
  exact ⟨rfl, rfl, rfl, rfl, rfl, rfl, by decide⟩

/-- C8 amended: every driver trace reaches a terminal status (`done` or
`failed`), and from the first terminal status write onward the status value
and all other core job fields never change again — only the webhook
delivery state and `updated_at` may be rewritten, and the append-only event
log may gain entries (the failure path repeats the same `failed` write). -/
theorem c8_terminal_frame (outcome : PipelineOutcome)
    (webhookUrl : Option String) (resultExists delivered : Bool) (db0 : Db)
    (jobId : String) (t0 : Nat) (j0 : DbJob)
    (h : db0.jobs jobId = some j0) :
    ∃ pre post,
      processImageWithWebhookOps outcome webhookUrl resultExists delivered =
        pre ++ post ∧
      ∃ j1, (applyOps jobId t0 db0 pre).jobs jobId = some j1 ∧
        isTerminal j1.status = true ∧
        ∀ n, ∃ j2,
          (applyOps jobId t0 db0 (pre ++ post.take n)).jobs jobId =
            some j2 ∧ preservesCore j1 j2 := by
  cases outcome with
  | ok =>
    obtain ⟨j1, hj1, hs1, _⟩ :=
      applyOps_terminalWrite jobId "done" none
        [DbOp.setStatus "editing" none, DbOp.recEvent "gpt:start",
         DbOp.recEvent "gpt:done"] t0 db0 j0 h
    have hterm : isTerminal j1.status = true := by rw [hs1]; rfl
    cases resultExists with
    | false =>
      refine ⟨[DbOp.setStatus "editing" none, DbOp.recEvent "gpt:start",
        DbOp.recEvent "gpt:done"] ++ [DbOp.setStatus "done" none], [],
        rfl, j1, hj1, hterm, ?_⟩
      intro n
      rw [applyOps_append]
      refine framePostTerminal jobId "" [] _ _ j1 hj1 (Or.inl rfl) ?_ ?_ n
      · intro ⟨op, hop, _⟩
        exact absurd hop (List.not_mem_nil op)
      · intro op hop
        exact absurd hop (List.not_mem_nil op)
    | true =>
      cases webhookUrl with
      | none =>
        refine ⟨[DbOp.setStatus "editing" none, DbOp.recEvent "gpt:start",
          DbOp.recEvent "gpt:done"] ++ [DbOp.setStatus "done" none], [],
          rfl, j1, hj1, hterm, ?_⟩
        intro n
        rw [applyOps_append]
        refine framePostTerminal jobId "" [] _ _ j1 hj1 (Or.inl rfl) ?_ ?_ n
        · intro ⟨op, hop, _⟩
          exact absurd hop (List.not_mem_nil op)
        · intro op hop
          exact absurd hop (List.not_mem_nil op)
      | some u =>
        refine ⟨[DbOp.setStatus "editing" none, DbOp.recEvent "gpt:start",
          DbOp.recEvent "gpt:done"] ++ [DbOp.setStatus "done" none],
          [DbOp.updWebhook (webhookStateAfter delivered)],
          rfl, j1, hj1, hterm, ?_⟩
        intro n
        rw [applyOps_append]
        refine framePostTerminal jobId "" _ _ _ j1 hj1 (Or.inl rfl) ?_ ?_ n
        · intro ⟨op, hop, s', err', hshape⟩
          rcases List.mem_singleton.mp hop with rfl
          simp at hshape
        · intro op hop
          rcases List.mem_singleton.mp hop with rfl
          trivial
  | downloadFail e =>
    obtain ⟨j1, hj1, hs1, herrF⟩ :=
      applyOps_terminalWrite jobId "failed" (some e)
        [DbOp.setStatus "editing" none] t0 db0 j0 h
    have hterm : isTerminal j1.status = true := by rw [hs1]; rfl
    have herr : e = "" ∨ j1.error = some e := by
      by_cases he : e = ""
      · exact Or.inl he
      · exact Or.inr (herrF e rfl he)
    cases webhookUrl with
    | none =>
      refine ⟨[DbOp.setStatus "editing" none] ++
        [DbOp.setStatus "failed" (some e)],
        [DbOp.setStatus "failed" (some e)], rfl, j1, hj1, hterm, ?_⟩
      intro n
      rw [applyOps_append]
      refine framePostTerminal jobId e _ _ _ j1 hj1 herr (fun _ => hs1) ?_ n
      intro op hop
      rcases List.mem_singleton.mp hop with rfl
      exact ⟨rfl, rfl⟩
    | some u =>
      refine ⟨[DbOp.setStatus "editing" none] ++
        [DbOp.setStatus "failed" (some e)],
        [DbOp.setStatus "failed" (some e),
         DbOp.updWebhook (webhookStateAfter delivered)],
        rfl, j1, hj1, hterm, ?_⟩
      intro n
      rw [applyOps_append]
      refine framePostTerminal jobId e _ _ _ j1 hj1 herr (fun _ => hs1) ?_ n
      intro op hop
      rcases List.mem_cons.mp hop with rfl | hop2
      · exact ⟨rfl, rfl⟩
      · rcases List.mem_singleton.mp hop2 with rfl
        trivial
  | gptFail e =>
    obtain ⟨j1, hj1, hs1, herrF⟩ :=
      applyOps_terminalWrite jobId "failed" (some e)
        [DbOp.setStatus "editing" none, DbOp.recEvent "gpt:start"] t0 db0
        j0 h
    have hterm : isTerminal j1.status = true := by rw [hs1]; rfl
    have herr : e = "" ∨ j1.error = some e := by
      by_cases he : e = ""
      · exact Or.inl he
      · exact Or.inr (herrF e rfl he)
    cases webhookUrl with
    | none =>
      refine ⟨[DbOp.setStatus "editing" none, DbOp.recEvent "gpt:start"] ++
        [DbOp.setStatus "failed" (some e)],
        [DbOp.setStatus "failed" (some e)], rfl, j1, hj1, hterm, ?_⟩
      intro n
      rw [applyOps_append]
      refine framePostTerminal jobId e _ _ _ j1 hj1 herr (fun _ => hs1) ?_ n
      intro op hop
      rcases List.mem_singleton.mp hop with rfl
      exact ⟨rfl, rfl⟩
    | some u =>
      refine ⟨[DbOp.setStatus "editing" none, DbOp.recEvent "gpt:start"] ++
        [DbOp.setStatus "failed" (some e)],
        [DbOp.setStatus "failed" (some e),
         DbOp.updWebhook (webhookStateAfter delivered)],
        rfl, j1, hj1, hterm, ?_⟩
      intro n
      rw [applyOps_append]
      refine framePostTerminal jobId e _ _ _ j1 hj1 herr (fun _ => hs1) ?_ n
      intro op hop
      rcases List.mem_cons.mp hop with rfl | hop2
      · exact ⟨rfl, rfl⟩
      · rcases List.mem_singleton.mp hop2 with rfl
        trivial
  | finalizeFail e =>
    obtain ⟨j1, hj1, hs1, herrF⟩ :=
      applyOps_terminalWrite jobId "failed" (some e)
        [DbOp.setStatus "editing" none, DbOp.recEvent "gpt:start",
         DbOp.recEvent "gpt:done"] t0 db0 j0 h
    have hterm : isTerminal j1.status = true := by rw [hs1]; rfl
    have herr : e = "" ∨ j1.error = some e := by
      by_cases he : e = ""
      · exact Or.inl he
      · exact Or.inr (herrF e rfl he)
    cases webhookUrl with
    | none =>
      refine ⟨[DbOp.setStatus "editing" none, DbOp.recEvent "gpt:start",
        DbOp.recEvent "gpt:done"] ++ [DbOp.setStatus "failed" (some e)],
        [DbOp.setStatus "failed" (some e)], rfl, j1, hj1, hterm, ?_⟩
      intro n
      rw [applyOps_append]
      refine framePostTerminal jobId e _ _ _ j1 hj1 herr (fun _ => hs1) ?_ n
      intro op hop
      rcases List.mem_singleton.mp hop with rfl
      exact ⟨rfl, rfl⟩
    | some u =>
      refine ⟨[DbOp.setStatus "editing" none, DbOp.recEvent "gpt:start",
        DbOp.recEvent "gpt:done"] ++ [DbOp.setStatus "failed" (some e)],
        [DbOp.setStatus "failed" (some e),
         DbOp.updWebhook (webhookStateAfter delivered)],
        rfl, j1, hj1, hterm, ?_⟩
      intro n
      rw [applyOps_append]
      refine framePostTerminal jobId e _ _ _ j1 hj1 herr (fun _ => hs1) ?_ n
      intro op hop
      rcases List.mem_cons.mp hop with rfl | hop2
      · exact ⟨rfl, rfl⟩
      · rcases List.mem_singleton.mp hop2 with rfl
        trivial

/-- Witness for C8 in the failure path with a configured webhook URL,
against the sample store. -/
theorem c8_terminal_frame_witness :
    sampleDb.jobs "job-1" = some sampleDbJob ∧
    (∃ pre post,
      processImageWithWebhookOps (.gptFail "boom")
          (some "https://cb.example") true false = pre ++ post ∧
      ∃ j1, (applyOps "job-1" 0 sampleDb pre).jobs "job-1" = some j1 ∧
        isTerminal j1.status = true ∧
        ∀ n, ∃ j2,
          (applyOps "job-1" 0 sampleDb (pre ++ post.take n)).jobs "job-1" =
            some j2 ∧ preservesCore j1 j2) :=
  ⟨rfl, c8_terminal_frame (.gptFail "boom") (some "https://cb.example")
    true false sampleDb "job-1" 0 sampleDbJob rfl⟩

end MGServer
